import Mathlib

/-!
Shallow embedding of the book-shop web application in src/app.py.

The persistent state is two tables, Book and User, modelled as lists in
insertion order (SQLAlchemy autoincrement ids are carried explicitly).
The per-browser session is modelled by the value of its cart key: an
Option (List Nat), where none means the session has no cart key and
some ids means session holds the list ids.  Prices are Python floats in
the source; they are embedded as rationals, exact for every literal that
occurs in the program.  The werkzeug password helpers
generate_password_hash and check_password_hash are external library
functions, so the handlers that use them are parametrised by them.
-/

/-- Book model, app.py lines 23-30: id, title, price, optional description. -/
structure Book where
  id : Nat
  title : String
  price : ℚ
  description : Option String
deriving DecidableEq

/-- User model, app.py lines 34-45: id, unique username, password hash. -/
structure User where
  id : Nat
  username : String
  password : String
deriving DecidableEq

/-- The two database tables. -/
structure DB where
  users : List User
  books : List Book
deriving DecidableEq

/-- Book.query.all, insertion order (app.py line 61). -/
def list_all (catalog : List Book) : List Book :=
  catalog

/-- Case-insensitive character comparison, as used by SQL ilike. -/
def charEqCI (a b : Char) : Bool :=
  a.toLower == b.toLower

/-- SQL LIKE pattern matching, case-insensitive (SQLAlchemy ilike on the
title column, app.py line 59).  A percent sign matches any sequence of
characters, an underscore matches any single character, and every other
pattern character matches one text character up to case. -/
def likeMatch : List Char → List Char → Bool
  | [], s => s.isEmpty
  | c :: p, s =>
      if c = '%' then (List.tails s).any (fun t => likeMatch p t)
      else
        match s with
        | [] => false
        | d :: s' => ((c == '_') || charEqCI c d) && likeMatch p s'

/-- Title matches an ilike pattern. -/
def ilike (text pattern : String) : Bool :=
  likeMatch pattern.data text.data

/-- The index handler, app.py lines 55-62: request.args.get "search"
yields none when the parameter is absent; Python truthiness treats both
none and the empty string as no query, returning the whole catalog;
otherwise the catalog is filtered by ilike against percent-wrapped
query. -/
def index (search_query : Option String) (catalog : List Book) : List Book :=
  match search_query with
  | none => list_all catalog
  | some q =>
      if q = "" then list_all catalog
      else catalog.filter (fun b => ilike b.title ("%" ++ q ++ "%"))

/-- Outcome of the login handler as observed by the client: a successful
login establishes the session user, a failure flashes a message with a
category and re-renders the form. -/
inductive LoginResult where
  | success (userId : Nat)
  | failure (message : String) (category : String)
deriving DecidableEq

/-- The flash text of app.py line 85 (uniform for both failure causes). -/
def invalidCredMsg : String :=
  "Неверные имя пользователя или пароль"

/-- The login handler, app.py lines 72-87: look the user up by username
with first; succeed only when a user was found and check_password_hash
accepts the stored hash against the submitted password; otherwise flash
one fixed message.  checkHash abstracts werkzeug check_password_hash. -/
def login (users : List User) (checkHash : String → String → Bool)
    (username password : String) : LoginResult :=
  match users.find? (fun u => u.username == username) with
  | some u =>
      if checkHash u.password password then .success u.id
      else .failure invalidCredMsg "danger"
  | none => .failure invalidCredMsg "danger"

/-- Outcome of the signup handler. -/
inductive SignupResult where
  | success (userId : Nat)
  | duplicate
deriving DecidableEq

/-- The signup handler, app.py lines 91-110: hash the password, reject
when a user with the username already exists, otherwise persist a new
user row (autoincrement id) and report success.  genHash abstracts
werkzeug generate_password_hash. -/
def signup (users : List User) (genHash : String → String)
    (username password : String) : List User × SignupResult :=
  let hashed := genHash password
  match users.find? (fun u => u.username == username) with
  | some _ => (users, .duplicate)
  | none =>
      let uid := (users.map User.id).foldr max 0 + 1
      (users ++ [⟨uid, username, hashed⟩], .success uid)

/-- Confirmation flash of app.py line 137 (the title is quoted with
\x27 in the source f-string). -/
def confirmationMessage (title address : String) : String :=
  "Покупка книги \x27" ++ title ++
    "\x27 прошла успешно! Ваш заказ будет отправлен на адрес: " ++ address ++ "."

/-- The complete_checkout handler, app.py lines 130-139: get_or_404 on
the book id (none models the 404 abort), read the name and address form
fields, flash a confirmation mentioning only the title and the address,
and redirect to index. -/
def complete_checkout (catalog : List Book) (book_id : Nat)
    (name address : String) : Option (String × String) :=
  match catalog.find? (fun b => b.id == book_id) with
  | none => none
  | some book => some (confirmationMessage book.title address, "index")

/-- The resolved book list of the cart handler, app.py lines 150-159:
when the session has a cart key, the books whose id is IN the cart list,
in table order; a SQL IN query returns each matching row once. -/
def cart_books (catalog : List Book) (sess : Option (List Nat)) : List Book :=
  match sess with
  | none => []
  | some ids => catalog.filter (fun b => ids.contains b.id)

/-- sum of book.price over the resolved books, app.py line 157. -/
def total_price (books : List Book) : ℚ :=
  (books.map Book.price).sum

/-- The cart handler, app.py lines 150-159: resolved books plus total. -/
def cart (catalog : List Book) (sess : Option (List Nat)) : List Book × ℚ :=
  (cart_books catalog sess, total_price (cart_books catalog sess))

/-- The add_to_cart handler, app.py lines 163-170: create the cart list
when absent, then append the id. -/
def add_to_cart (book_id : Nat) (sess : Option (List Nat)) : Option (List Nat) :=
  some (sess.getD [] ++ [book_id])

/-- The remove_from_cart handler, app.py lines 174-180: when the session
has a cart, keep exactly the entries different from the id; when it has
none, do nothing. -/
def remove_from_cart (book_id : Nat) (sess : Option (List Nat)) : Option (List Nat) :=
  match sess with
  | none => none
  | some ids => some (ids.filter (fun b => b != book_id))

/-- Seed catalog of app.py lines 203-213, ids 1-9 by autoincrement. -/
def gatsby : Book :=
  ⟨1, "The Great Gatsby", 10.99, some "A novel by F. Scott Fitzgerald."⟩

/-- Seed book id 5. -/
def catcher : Book :=
  ⟨5, "The Catcher in the Rye", 9.99, some "A novel by J.D. Salinger."⟩

/-- The nine seed books. -/
def seedBooks : List Book :=
  [gatsby,
   ⟨2, "1984", 8.99, some "A dystopian novel by George Orwell."⟩,
   ⟨3, "To Kill a Mockingbird", 12.49, some "A novel by Harper Lee."⟩,
   ⟨4, "Pride and Prejudice", 6.99, some "A classic novel by Jane Austen."⟩,
   catcher,
   ⟨6, "Moby Dick", 11.99, some "A novel by Herman Melville."⟩,
   ⟨7, "War and Peace", 14.99, some "A historical novel by Leo Tolstoy."⟩,
   ⟨8, "The Odyssey", 7.49, some "An epic poem by Homer."⟩,
   ⟨9, "The Hobbit", 13.99, some "A fantasy novel by J.R.R. Tolkien."⟩]

/-- The create_tables before-request hook, app.py lines 192-215: seed a
default admin user when the user table is empty, then seed the nine
books when the book table is empty. -/
def create_tables (genHash : String → String) (db : DB) : DB :=
  let db1 :=
    if db.users.length = 0 then { db with users := [⟨1, "admin", genHash "admin"⟩] }
    else db
  if db1.books.length = 0 then { db1 with books := seedBooks }
  else db1

/-- Specification-side notion used to check the search claims: q occurs
as a contiguous sublist of s. -/
def containsSubList (q s : List Char) : Bool :=
  match s with
  | [] => q.isEmpty
  | _ :: s' => q.isPrefixOf s || containsSubList q s'

/-- Specification-side case-insensitive substring containment. -/
def containsCaseless (q s : String) : Bool :=
  containsSubList (q.data.map Char.toLower) (s.data.map Char.toLower)

/-- A nonempty pattern never literally matches the empty text. -/
lemma isPrefixOf_nil_right (l : List Char) : l.isPrefixOf ([] : List Char) = l.isEmpty := by
  cases l <;> rfl

/-- The bare percent pattern matches every text. -/
lemma percent_matches_all (s : List Char) : likeMatch ['%'] s = true := by
  simp only [likeMatch, if_true, eq_self_iff_true, List.any_eq_true]
  exact ⟨[], (List.mem_tails _ _).mpr List.nil_suffix, rfl⟩

/-- A wildcard-free pattern followed by a closing percent matches exactly
the texts whose lower-cased characters start with the lower-cased
pattern. -/
lemma likeMatch_literal_percent (q : List Char) (hq : ∀ c ∈ q, c ≠ '%' ∧ c ≠ '_') :
    ∀ s : List Char,
      likeMatch (q ++ ['%']) s = (q.map Char.toLower).isPrefixOf (s.map Char.toLower) := by
  induction q with
  | nil =>
    intro s
    simp [percent_matches_all, List.isPrefixOf]
  | cons c q ih =>
    intro s
    have hc := hq c (List.mem_cons_self c q)
    have hq' : ∀ x ∈ q, x ≠ '%' ∧ x ≠ '_' := fun x hx => hq x (List.mem_cons_of_mem c hx)
    have hu : (c == '_') = false := by simp [hc.2]
    cases s with
    | nil => simp [likeMatch, hc.1, List.isPrefixOf]
    | cons d s' =>
      simp [likeMatch, hc.1, List.isPrefixOf, ih hq', charEqCI, hu]

/-- A wildcard-free pattern wrapped in percents matches exactly the texts
that contain the pattern as a case-insensitive contiguous sublist. -/
lemma likeMatch_wrap (q : List Char) (hq : ∀ c ∈ q, c ≠ '%' ∧ c ≠ '_') :
    ∀ s : List Char,
      likeMatch ('%' :: (q ++ ['%'])) s
        = containsSubList (q.map Char.toLower) (s.map Char.toLower) := by
  intro s
  induction s with
  | nil =>
    simp only [likeMatch, if_true, eq_self_iff_true, List.tails, List.any_cons, List.any_nil,
      Bool.or_false, likeMatch_literal_percent q hq, List.map_nil, isPrefixOf_nil_right,
      containsSubList]
  | cons d s' ih =>
    simp only [likeMatch, if_true, eq_self_iff_true, List.tails_cons, List.any_cons] at ih ⊢
    rw [ih, likeMatch_literal_percent q hq]
    simp [containsSubList]

/-- containsSubList is contiguous-sublist containment: q occurs in s
exactly when s splits as a prefix, then q, then a suffix. -/
lemma containsSubList_spec (q : List Char) :
    ∀ s : List Char, containsSubList q s = true ↔ ∃ a b, s = a ++ q ++ b := by
  intro s
  induction s with
  | nil =>
    constructor
    · intro h
      have : q = [] := by
        cases q with
        | nil => rfl
        | cons c t => simp [containsSubList] at h
      exact ⟨[], [], by simp [this]⟩
    · rintro ⟨a, b, hab⟩
      have h3 : a = [] ∧ q = [] ∧ b = [] := by
        have h := hab.symm
        simpa [List.append_eq_nil] using h
      simp [containsSubList, h3.2.1]
  | cons d s' ih =>
    simp only [containsSubList, Bool.or_eq_true]
    constructor
    · rintro (hpre | hrec)
      · obtain ⟨t, ht⟩ := List.isPrefixOf_iff_prefix.mp hpre
        exact ⟨[], t, by simp [ht]⟩
      · obtain ⟨a, b, hab⟩ := ih.mp hrec
        exact ⟨d :: a, b, by simp [hab]⟩
    · rintro ⟨a, b, hab⟩
      cases a with
      | nil =>
        left
        exact List.isPrefixOf_iff_prefix.mpr ⟨b, by simpa using hab.symm⟩
      | cons x xs =>
        right
        apply ih.mpr
        refine ⟨xs, b, ?_⟩
        have h := congrArg List.tail hab
        simpa using h

/-- On a wildcard-free query, the percent-wrapped ilike of the source is
case-insensitive substring containment. -/
lemma ilike_wrap (q : String) (hq : ∀ c ∈ q.data, c ≠ '%' ∧ c ≠ '_') (s : String) :
    ilike s ("%" ++ q ++ "%") = containsCaseless q s := by
  have hdata : ("%" ++ q ++ "%").data = '%' :: (q.data ++ ['%']) := rfl
  simp only [ilike, containsCaseless, hdata, likeMatch_wrap q.data hq s.data]

/-- In a catalog with pairwise distinct ids, filtering by one id of a
member yields exactly that member. -/
lemma filter_id_eq_singleton (catalog : List Book) (b : Book)
    (hb : b ∈ catalog) (hnodup : (catalog.map Book.id).Nodup) :
    catalog.filter (fun c => c.id == b.id) = [b] := by
  induction catalog with
  | nil => simp at hb
  | cons a t ih =>
    rw [List.map_cons, List.nodup_cons] at hnodup
    rcases List.mem_cons.mp hb with hba | hbt
    · subst hba
      have hrest : t.filter (fun c => c.id == b.id) = [] := by
        rw [List.filter_eq_nil_iff]
        intro c hc hcid
        have hc' : c.id ∈ t.map Book.id := List.mem_map_of_mem Book.id hc
        have heq : c.id = b.id := by simpa using hcid
        exact hnodup.1 (heq ▸ hc')
      simp [List.filter_cons, hrest]
    · have hid : b.id ∈ t.map Book.id := List.mem_map_of_mem Book.id hbt
      have hne : (a.id == b.id) = false := by
        rw [beq_eq_false_iff_ne]
        intro heq
        exact hnodup.1 (heq ▸ hid)
      simp [List.filter_cons, hne, ih hbt hnodup.2]

/-- C1 (amended): the cart handler resolves ids through a SQL IN query,
which returns each matching catalog row once; with pairwise distinct
catalog ids, a cart holding the same existing book id twice resolves to
one entry for that book and a total equal to that price once. -/
theorem cart_resolves_duplicates_once (catalog : List Book) (b : Book)
    (hb : b ∈ catalog) (hnodup : (catalog.map Book.id).Nodup) :
    cart catalog (some [b.id, b.id]) = ([b], b.price) := by
  have hfe : catalog.filter (fun c => ([b.id, b.id] : List Nat).contains c.id)
      = catalog.filter (fun c => c.id == b.id) := by
    apply List.filter_congr
    intro c _
    simp [beq_eq_decide]
  have hbooks : cart_books catalog (some [b.id, b.id]) = [b] := by
    simp only [cart_books]
    rw [hfe, filter_id_eq_singleton catalog b hb hnodup]
  simp [cart, hbooks, total_price]

/-- Concrete instance of the amended C1 statement on the seed catalog. -/
theorem cart_resolves_duplicates_once_witness :
    cart seedBooks (some [catcher.id, catcher.id]) = ([catcher], catcher.price) :=
  cart_resolves_duplicates_once seedBooks catcher (by simp [seedBooks]) (by decide)

/-- C1 as stated fails: on the seed catalog a cart holding book id 5
twice resolves to one entry, not two with a doubled total. -/
theorem cart_duplicate_ids_counterexample :
    ¬ ((cart seedBooks (some [5, 5])).1.length = 2 ∧
       (cart seedBooks (some [5, 5])).2 = 2 * catcher.price) :=
  fun h => absurd h.1 (by decide)

/-- C2: login fails with the same observable outcome, the one fixed
danger flash, whether the username is unknown or the user exists and the
hash check rejects the submitted password. -/
theorem login_uniform_invalid (users : List User) (checkHash : String → String → Bool)
    (u1 p1 u2 p2 : String) (usr : User)
    (h1 : users.find? (fun u => u.username == u1) = none)
    (h2 : users.find? (fun u => u.username == u2) = some usr)
    (h3 : checkHash usr.password p2 = false) :
    login users checkHash u1 p1 = LoginResult.failure invalidCredMsg "danger" ∧
    login users checkHash u2 p2 = LoginResult.failure invalidCredMsg "danger" ∧
    login users checkHash u1 p1 = login users checkHash u2 p2 := by
  refine ⟨?_, ?_, ?_⟩ <;> simp [login, h1, h2, h3]

/-- Concrete instance of C2: one stored user, an unknown name and a
wrong password give the identical failure. -/
theorem login_uniform_invalid_witness :
    login [⟨1, "alice", "Hpw1"⟩] (fun h p => h == "H" ++ p) "bob" "pw1"
        = LoginResult.failure invalidCredMsg "danger" ∧
    login [⟨1, "alice", "Hpw1"⟩] (fun h p => h == "H" ++ p) "alice" "wrong"
        = LoginResult.failure invalidCredMsg "danger" ∧
    login [⟨1, "alice", "Hpw1"⟩] (fun h p => h == "H" ++ p) "bob" "pw1"
        = login [⟨1, "alice", "Hpw1"⟩] (fun h p => h == "H" ++ p) "alice" "wrong" :=
  login_uniform_invalid [⟨1, "alice", "Hpw1"⟩] (fun h p => h == "H" ++ p)
    "bob" "pw1" "alice" "wrong" ⟨1, "alice", "Hpw1"⟩ (by decide) (by decide) (by decide)

/-- C3: when exactly one stored user carries the username, signup with
that username fails as duplicate, returns the store unchanged, and the
store still contains exactly one user with that username. -/
theorem signup_duplicate_rejected (users : List User) (genHash : String → String)
    (uname pw : String)
    (h : (users.filter (fun u => u.username == uname)).length = 1) :
    signup users genHash uname pw = (users, SignupResult.duplicate) ∧
    ((signup users genHash uname pw).1.filter (fun u => u.username == uname)).length = 1 := by
  have hne : users.filter (fun u => u.username == uname) ≠ [] := by
    intro hnil
    rw [hnil] at h
    simp at h
  obtain ⟨x, hx⟩ := List.exists_mem_of_ne_nil _ hne
  have hex : (users.find? (fun u => u.username == uname)).isSome := by
    rw [List.find?_isSome]
    exact ⟨x, (List.mem_filter.mp hx).1, (List.mem_filter.mp hx).2⟩
  obtain ⟨u, hu⟩ := Option.isSome_iff_exists.mp hex
  have h1 : signup users genHash uname pw = (users, SignupResult.duplicate) := by
    simp [signup, hu]
  exact ⟨h1, by rw [h1]; exact h⟩

/-- Concrete instance of C3 on a one-user store. -/
theorem signup_duplicate_rejected_witness :
    signup [⟨1, "admin", "X"⟩] (fun p => p ++ "!") "admin" "pw"
        = ([⟨1, "admin", "X"⟩], SignupResult.duplicate) ∧
    ((signup [⟨1, "admin", "X"⟩] (fun p => p ++ "!") "admin" "pw").1.filter
        (fun u => u.username == "admin")).length = 1 :=
  signup_duplicate_rejected [⟨1, "admin", "X"⟩] (fun p => p ++ "!") "admin" "pw" (by decide)

/-- C4: the seeding hook is idempotent, and from an empty store one run
leaves exactly one default user and the nine seed books. -/
theorem create_tables_idempotent (genHash : String → String) (db : DB) :
    create_tables genHash (create_tables genHash db) = create_tables genHash db ∧
    (create_tables genHash ⟨[], []⟩).users.length = 1 ∧
    (create_tables genHash ⟨[], []⟩).books.length = 9 := by
  refine ⟨?_, by simp [create_tables, seedBooks], by simp [create_tables, seedBooks]⟩
  by_cases h1 : db.users.length = 0 <;> by_cases h2 : db.books.length = 0 <;>
    simp [create_tables, h1, h2, seedBooks]

/-- C5: remove_from_cart drops every occurrence of the id, keeps the
other entries in their relative order (the result is a sublist), and the
sequence add 5, add 5, remove 5 from a fresh session leaves an empty
cart. -/
theorem remove_from_cart_removes_all (ids : List Nat) (book_id : Nat) :
    remove_from_cart book_id (some ids) = some (ids.filter (fun b => b != book_id)) ∧
    book_id ∉ ids.filter (fun b => b != book_id) ∧
    List.Sublist (ids.filter (fun b => b != book_id)) ids ∧
    remove_from_cart 5 (add_to_cart 5 (add_to_cart 5 none)) = some [] := by
  refine ⟨rfl, ?_, List.filter_sublist ids, by decide⟩
  intro hmem
  have hk := (List.mem_filter.mp hmem).2
  simp at hk

/-- C6: resolution drops stale ids silently: a cart whose ids all miss
the catalog resolves to no books and total 0, a cart holding ids 1 and 2
against a catalog where only book 1 survives resolves to book 1 alone
with its price as total, and a session without a cart resolves to total
0. -/
theorem cart_skips_stale (catalog : List Book) (ids : List Nat)
    (hstale : ∀ i ∈ ids, i ∉ catalog.map Book.id) :
    cart catalog (some ids) = ([], 0) ∧
    cart [gatsby] (some [1, 2]) = ([gatsby], gatsby.price) ∧
    cart catalog none = ([], 0) := by
  refine ⟨?_, ?_, ?_⟩
  · have hnil : cart_books catalog (some ids) = [] := by
      simp only [cart_books, List.filter_eq_nil_iff]
      intro b hb hcon
      have hmem : b.id ∈ ids := by simpa using hcon
      exact hstale b.id hmem (List.mem_map_of_mem Book.id hb)
    simp [cart, hnil, total_price]
  · simp [cart, cart_books, total_price, gatsby]
  · simp [cart, cart_books, total_price]

/-- Concrete instance of C6: two stale ids against the seed catalog. -/
theorem cart_skips_stale_witness :
    cart seedBooks (some [100, 200]) = ([], 0) ∧
    cart [gatsby] (some [1, 2]) = ([gatsby], gatsby.price) ∧
    cart seedBooks none = ([], 0) :=
  cart_skips_stale seedBooks [100, 200] (by decide)

/-- C7: searching with the empty string and searching with an absent
parameter both return the full catalog in order, exactly list_all. -/
theorem index_no_query_lists_all (catalog : List Book) :
    index (some "") catalog = list_all catalog ∧ index none catalog = list_all catalog :=
  ⟨by simp [index], rfl⟩

/-- C8 (amended): for every nonempty query free of the SQL LIKE
wildcards percent and underscore, the search returns exactly the books
whose title contains the query case-insensitively; in particular great
matches The Great Gatsby. -/
theorem index_search_caseless (q : String) (catalog : List Book)
    (hne : q ≠ "") (hw : ∀ c ∈ q.data, c ≠ '%' ∧ c ≠ '_') :
    index (some q) catalog = catalog.filter (fun b => containsCaseless q b.title) ∧
    containsCaseless "great" "The Great Gatsby" = true := by
  constructor
  · simp only [index, if_neg hne]
    exact List.filter_congr (fun b _ => ilike_wrap q hw b.title)
  · decide

/-- Concrete instance of the amended C8 statement on the seed catalog. -/
theorem index_search_caseless_witness :
    index (some "great") seedBooks
        = seedBooks.filter (fun b => containsCaseless "great" b.title) ∧
    containsCaseless "great" "The Great Gatsby" = true :=
  index_search_caseless "great" seedBooks (by decide) (by decide)

/-- C8 as stated fails: the nonempty query percent is a LIKE wildcard,
so the search returns all nine seed books although no title contains a
percent sign. -/
theorem index_wildcard_counterexample :
    ¬ (index (some "%") seedBooks
        = seedBooks.filter (fun b => containsCaseless "%" b.title)) := by
  intro h
  have h9 : (index (some "%") seedBooks).length = 9 := by decide
  have h0 : (seedBooks.filter (fun b => containsCaseless "%" b.title)).length = 0 := by decide
  rw [h, h0] at h9
  exact absurd h9 (by decide)

/-- C9: when the book id resolves, complete_checkout produces the
confirmation built from the title and the address and the redirect to
index, identically for any two values of the name form field. -/
theorem complete_checkout_ignores_name (catalog : List Book) (book_id : Nat)
    (n1 n2 address : String) (book : Book)
    (h : catalog.find? (fun b => b.id == book_id) = some book) :
    complete_checkout catalog book_id n1 address
        = some (confirmationMessage book.title address, "index") ∧
    complete_checkout catalog book_id n1 address
        = complete_checkout catalog book_id n2 address := by
  refine ⟨?_, ?_⟩ <;> simp [complete_checkout, h]

/-- Concrete instance of C9 on the seed catalog, two shipping names. -/
theorem complete_checkout_ignores_name_witness :
    complete_checkout seedBooks 2 "Alice" "Baker Street 221b"
        = some (confirmationMessage "1984" "Baker Street 221b", "index") ∧
    complete_checkout seedBooks 2 "Alice" "Baker Street 221b"
        = complete_checkout seedBooks 2 "Bob" "Baker Street 221b" :=
  complete_checkout_ignores_name seedBooks 2 "Alice" "Bob" "Baker Street 221b"
    ⟨2, "1984", 8.99, some "A dystopian novel by George Orwell."⟩ (by rfl)

/-- C10: on a session without a cart key, remove_from_cart leaves the
session unchanged for every book id; in particular it creates no empty
cart list. -/
theorem remove_from_cart_no_cart_noop (book_id : Nat) :
    remove_from_cart book_id none = none ∧
    remove_from_cart book_id none ≠ some [] :=
  ⟨rfl, by simp [remove_from_cart]⟩
